import Mathlib

/-
Verification of the connection pool and operation dispatch core of the
mongo-go-driver excerpt.

The pool model embeds x/mongo/driverlegacy/topology's pool
(newPool, drain, expired, connect, disconnect, get, put, close).
The dispatch models embed x/mongo/driverlegacy's Read, Write,
CountDocuments and DropIndexes control flow.  Parts of the operation
execution engine (operation.go) are not among the sources; definitions for
those carry a doc comment starting with "Modelled from the spec:".
-/

deriving instance DecidableEq for Except

namespace MongoDriver

/-- Connectivity flag of a pool: disconnected / connected / disconnecting. -/
inductive ConnState where
  | disconnected
  | connected
  | disconnecting
deriving DecidableEq, Repr

/-- Errors surfaced by pool methods (PoolError and ConnectionError values). -/
inductive PoolErr where
  | poolConnected      -- ErrPoolConnected
  | poolDisconnected   -- ErrPoolDisconnected
  | wrongPool          -- ErrWrongPool
  | connectionError    -- ConnectionError wrapping a failed net.Conn close
  | ctxErr             -- ctx.Err() surfaced from the get select
  | dialErr            -- newConnection failure
deriving DecidableEq, Repr

/-- A pooled connection: the owning pool reference (c.pool), the pool-scoped
id (c.poolID), the generation stamped at creation, whether the transport is
still live (c.nc, true while the net.Conn is non-nil), and whether closing
the transport would report an error. -/
structure Connection where
  poolRef : Nat
  poolID : Nat
  generation : Nat
  nc : Bool
  ncCloseErr : Bool
deriving DecidableEq, Repr

/-- The pool state: its own identity (for the c.pool == p comparison), the
id counter, the idle-queue capacity (size of the conns channel), the idle
queue itself (head is the next receive), the generation counter, the
connectivity flag and the set of ids of currently open connections
(the opened map's key set). -/
structure Pool where
  selfRef : Nat
  nextid : Nat
  size : Nat
  conns : List Connection
  generation : Nat
  connected : ConnState
  opened : List Nat
deriving DecidableEq, Repr

/-- newPool: empty idle queue, generation 0, disconnected, empty opened map. -/
def newPool (selfRef size : Nat) : Pool :=
  { selfRef := selfRef, nextid := 0, size := size, conns := [],
    generation := 0, connected := .disconnected, opened := [] }

/-- drain lazily drains the pool by increasing the generation counter. -/
def drain (p : Pool) : Pool := { p with generation := p.generation + 1 }

/-- expired: a recorded generation is stale iff it is below the pool's
current generation. -/
def expired (p : Pool) (generation : Nat) : Bool :=
  decide (generation < p.generation)

/-- connect puts the pool into the connected state: the compare-and-swap
from disconnected to connected fails with ErrPoolConnected otherwise, and
on success the generation counter is advanced once. -/
def connect (p : Pool) : Except PoolErr Pool :=
  if p.connected = .disconnected then
    .ok { p with connected := .connected, generation := p.generation + 1 }
  else
    .error .poolConnected

/-- Result of close / put on a single connection: the updated pool, the
updated connection, and the reported error if any. -/
structure CloseResult where
  pool : Pool
  conn : Connection
  err : Option PoolErr
deriving DecidableEq, Repr

/-- close: rejects a connection belonging to another pool, removes the id
from the opened map, and closes the transport unless it is already closed
(in which case the call is a no-op success). -/
def close (p : Pool) (c : Connection) : CloseResult :=
  if c.poolRef ≠ p.selfRef then
    { pool := p, conn := c, err := some .wrongPool }
  else if c.nc = false then
    { pool := { p with opened := p.opened.filter (fun i => i ≠ c.poolID) },
      conn := c, err := none }
  else
    { pool := { p with opened := p.opened.filter (fun i => i ≠ c.poolID) },
      conn := { c with nc := false },
      err := if c.ncCloseErr then some .connectionError else none }

/-- Effect of close on the opened map alone, used in the retry loop of get
where the closed stale connection is discarded (go p.close(c)). -/
def closeOpened (p : Pool) (c : Connection) : List Nat :=
  if c.poolRef = p.selfRef then p.opened.filter (fun i => i ≠ c.poolID) else p.opened

/-- Result of put: the updated pool and connection, whether the connection
landed back in the idle cache, and the reported error if any. -/
structure PutResult where
  pool : Pool
  conn : Connection
  cached : Bool
  err : Option PoolErr
deriving DecidableEq, Repr

/-- put: rejects a connection of another pool; closes the connection when
the pool is not connected or the connection's generation is stale; caches
it when the idle queue has room; closes it otherwise. -/
def put (p : Pool) (c : Connection) : PutResult :=
  if c.poolRef ≠ p.selfRef then
    { pool := p, conn := c, cached := false, err := some .wrongPool }
  else if p.connected ≠ .connected ∨ expired p c.generation then
    let r := close p c
    { pool := r.pool, conn := r.conn, cached := false, err := r.err }
  else if p.conns.length < p.size then
    { pool := { p with conns := p.conns ++ [c] }, conn := c, cached := true, err := none }
  else
    let r := close p c
    { pool := r.pool, conn := r.conn, cached := false, err := r.err }

/-- Environment of one get call: whether the caller's context is already
done, whether dialing a new connection succeeds, the connectivity flag as
re-read after the dial (a concurrent disconnect may have raced), and the
transport-close behaviour of the new connection. -/
structure GetEnv where
  ctxDone : Bool
  dialOk : Bool
  connectedAfterDial : ConnState
  ncCloseErrNew : Bool
deriving DecidableEq, Repr

/-- Result of get: the connection or the error, the updated pool, and the
connection that was created and then immediately closed when the pool left
the connected state during creation (if that raced path was taken). -/
structure GetResult where
  res : Except PoolErr Connection
  pool : Pool
  createdClosed : Option Connection
deriving DecidableEq, Repr

/-- Default branch of the select in get: fail on a done context, dial a new
connection, stamp it with a fresh id and the current generation, re-check
the connectivity flag (closing the new connection and failing when the pool
left the connected state during creation), and otherwise register it in the
opened map. -/
def getDefault (env : GetEnv) (p : Pool) : GetResult :=
  if env.ctxDone then
    { res := .error .ctxErr, pool := p, createdClosed := none }
  else if env.dialOk = false then
    { res := .error .dialErr, pool := p, createdClosed := none }
  else
    let c : Connection :=
      { poolRef := p.selfRef, poolID := p.nextid + 1, generation := p.generation,
        nc := true, ncCloseErr := env.ncCloseErrNew }
    let p1 : Pool := { p with nextid := p.nextid + 1 }
    if env.connectedAfterDial ≠ .connected then
      let r := close p1 c
      { res := .error .poolDisconnected, pool := r.pool, createdClosed := some r.conn }
    else
      { res := .ok c, pool := { p1 with opened := c.poolID :: p1.opened }, createdClosed := none }

/-- Receive loop of get: take the next idle connection, close it and retry
when its generation is stale (the Go source recurses into p.get here, with
the channel one element shorter), return it otherwise; fall through to the
default branch once the idle queue is empty.  The list argument is the idle
queue of the pool argument. -/
def getLoop (env : GetEnv) : List Connection → Pool → GetResult
  | c :: rest, p =>
    if expired p c.generation then
      getLoop env rest { p with conns := rest, opened := closeOpened p c }
    else
      { res := .ok c, pool := { p with conns := rest }, createdClosed := none }
  | [], p => getDefault env p

/-- get: fails at once with ErrPoolDisconnected when the pool is not in the
connected state; otherwise runs the receive loop over the idle queue. -/
def get (env : GetEnv) (p : Pool) : GetResult :=
  if p.connected ≠ .connected then
    { res := .error .poolDisconnected, pool := p, createdClosed := none }
  else
    getLoop env p.conns p

/-- Duration handed to time.NewTimer by disconnect: time.Now().Sub(dl),
i.e. now minus the deadline.  For a deadline in the future this is
negative. -/
def disconnectTimerDuration (now dl : Int) : Int := now - dl

/-- Exit time of the graceful-wait loop in disconnect.  The timer fires
max(duration, 0) after creation (a Go timer with a non-positive duration
fires immediately); the ticker ticks every second, and the loop also exits
at the first tick at which the opened map is observed empty.  emptyTick is
that first tick index (in seconds after the call), none when the opened map
never empties; it abstracts the concurrent put/close activity of other
goroutines during the wait. -/
def disconnectWaitExit (now dl : Int) (emptyTick : Option Nat) : Int :=
  let fire := now + max (disconnectTimerDuration now dl) 0
  match emptyTick with
  | none => fire
  | some k => min fire (now + (k : Int))

/-- Result of disconnect: the final pool, the returned error, the time at
which the force-close sweep of the opened map ran, and the ids of the
connections that sweep closed. -/
structure DisconnectResult where
  pool : Pool
  err : Option PoolErr
  sweepTime : Int
  forced : List Nat
deriving DecidableEq, Repr

/-- disconnect: compare-and-swap connected to disconnecting (failing with
ErrPoolDisconnected otherwise), close every idle connection without
blocking (errors ignored), wait the graceful window when a deadline is
supplied, then force-close every connection still in the opened map (errors
ignored), store disconnected and return nil.  The model times the sweep
with disconnectWaitExit; at the sweep the opened map holds whatever the
wait left (here: its value at the call, the single-threaded snapshot). -/
def disconnect (p : Pool) (now : Int) (dl : Option Int) (emptyTick : Option Nat) :
    DisconnectResult :=
  if p.connected ≠ .connected then
    { pool := p, err := some .poolDisconnected, sweepTime := now, forced := [] }
  else
    let p1 : Pool := { p with connected := .disconnecting }
    let p2 : Pool := p1.conns.foldl (fun q c => (close q c).pool) { p1 with conns := [] }
    let t : Int :=
      match dl with
      | some d => disconnectWaitExit now d emptyTick
      | none => now
    let forced := p2.opened
    { pool := { p2 with opened := [], connected := .disconnected },
      err := none, sweepTime := t, forced := forced }

/-- One pool operation, for stating pool-wide invariants. -/
inductive PoolOp where
  | drainOp
  | connectOp
  | disconnectOp (now : Int) (dl : Option Int) (emptyTick : Option Nat)
  | getOp (env : GetEnv)
  | putOp (c : Connection)
  | closeOp (c : Connection)

/-- The pool state after one operation. -/
def applyOp (p : Pool) : PoolOp → Pool
  | .drainOp => drain p
  | .connectOp => match connect p with | .ok q => q | .error _ => p
  | .disconnectOp now dl et => (disconnect p now dl et).pool
  | .getOp env => (get env p).pool
  | .putOp c => (put p c).pool
  | .closeOp c => (close p c).pool

/-- Well-formedness of the pool bookkeeping: every idle connection belongs
to this pool and was stamped at or before the current generation, and no
opened id is above the id counter. -/
def PoolWF (p : Pool) : Prop :=
  (∀ c ∈ p.conns, c.poolRef = p.selfRef ∧ c.generation ≤ p.generation) ∧
  (∀ i ∈ p.opened, i ≤ p.nextid)

/-! Session, write-concern and read-preference values consumed by the
dispatch layer. -/

/-- Read preference modes of the readpref package. -/
inductive ReadPrefMode where
  | primary
  | primaryPreferred
  | secondary
  | secondaryPreferred
  | nearest
deriving DecidableEq, Repr

/-- A read preference: its mode, tag sets, and max staleness (seconds). -/
structure ReadPref where
  mode : ReadPrefMode
  tagSets : List (List (String × String)) := []
  maxStaleness : Option Int := none
deriving DecidableEq, Repr

/-- Session kind: sessions started by the application are explicit, those
started by the dispatch layer are implicit. -/
inductive SessionKind where
  | explicitK
  | implicitK
deriving DecidableEq, Repr

/-- Transaction phase of a client session. -/
inductive TransactionState where
  | none
  | starting
  | inProgress
  | committed
  | aborted
deriving DecidableEq, Repr

/-- A client session as consulted by the dispatch layer: its kind, its
transaction phase, whether a server is pinned, and the transaction's read
preference (sess.CurrentRp). -/
structure ClientSession where
  kind : SessionKind
  txnState : TransactionState
  pinnedServer : Bool := false
  currentRp : Option ReadPref := Option.none
deriving DecidableEq, Repr

/-- sess.TransactionInProgress(). -/
def ClientSession.transactionInProgress (s : ClientSession) : Bool :=
  decide (s.txnState = .inProgress)

/-- sess.TransactionStarting(). -/
def ClientSession.transactionStarting (s : ClientSession) : Bool :=
  decide (s.txnState = .starting)

/-- sess.TransactionRunning(): the transaction is starting or in progress. -/
def ClientSession.transactionRunning (s : ClientSession) : Bool :=
  s.transactionStarting || s.transactionInProgress

/-- Modelled from the spec: a write concern value (the writeconcern package
is not among the sources); w is the requested acknowledgement count and j
the journal flag. -/
structure WriteConcernW where
  w : Nat
  j : Bool
deriving DecidableEq, Repr

/-- An optional write concern, nil meaning the server default. -/
abbrev WriteConcern := Option WriteConcernW

/-- Modelled from the spec: writeconcern.AckWrite (not among the sources).
Per the spec an unacknowledged write is one requesting w:0; a nil write
concern is acknowledged. -/
def ackWrite : WriteConcern → Bool
  | Option.none => true
  | some wc => !(wc.w == 0 && !wc.j)

/-- A wire version range of a server description. -/
structure VersionRange where
  min : Int
  max : Int
deriving DecidableEq, Repr

/-- Modelled from the spec: description.SessionsSupported (not among the
sources) — the server's wire version range meets the minimum needed for
sessions and retryable writes.  The retryable test distinguishes max wire
version 7 (retryable) from 5 (not); the minimum is 6. -/
def sessionsSupported : Option VersionRange → Bool
  | Option.none => false
  | some vr => decide (6 ≤ vr.max)

/-- Embeds retrySupported (x/mongo/driverlegacy/write.go): retryable writes
need a sessions-capable topology, a sufficient wire version, no starting or
in-progress transaction, and an acknowledged write concern. -/
def retrySupported (topoSupportsSessions : Bool) (wire : Option VersionRange)
    (sess : Option ClientSession) (wc : WriteConcern) : Bool :=
  topoSupportsSessions && sessionsSupported wire &&
    !((sess.map fun s => s.transactionInProgress || s.transactionStarting).getD false) &&
    ackWrite wc

/-! Dispatch-layer models: the control flow of the driverlegacy Read,
Write, CountDocuments and DropIndexes functions.  Outcomes of the external
collaborators (server selection, connection checkout, session creation, the
wire round trip) are inputs; the output is a trace of the observable
behaviour of one call. -/

/-- The topology as consulted by the dispatch layer. -/
structure TopologyModel where
  supportsSessions : Bool
deriving DecidableEq, Repr

/-- Errors surfaced by a dispatch call. -/
inductive DispatchErr where
  | selectFailed          -- SelectServerLegacy error
  | connFailed            -- ConnectionLegacy error
  | newSessionFailed      -- session.NewClientSession error
  | roundTripFailed       -- cmd.RoundTrip error
  | nonPrimaryRP          -- command.ErrNonPrimaryRP
  | unacknowledgedWrite   -- command.ErrUnacknowledgedWrite
  | collationUnsupported  -- ErrCollation (wire version below 5)
  | collationDocFailed    -- bsonx.ReadDoc error on the collation document
  | hintFailed            -- interfaceToElement error on the hint
deriving DecidableEq, Repr

/-- Collaborator outcomes for one dispatch call. -/
structure DispatchEnv where
  selectOk : Bool
  connOk : Bool
  newSessionOk : Bool
  roundTripOk : Bool
deriving DecidableEq, Repr

/-- Observable trace of one dispatch call: the returned error (none on
success), whether the caller performed the wire round trip and with which
session kind attached, whether an implicit session was created and ended,
whether the caller path closed the connection, and whether a detached
round-trip task was spawned. -/
structure DispatchTrace where
  err : Option DispatchErr := Option.none
  roundTripRan : Bool := false
  roundTripSession : Option SessionKind := Option.none
  implicitCreated : Bool := false
  implicitEnded : Bool := false
  connClosedByCaller : Bool := false
  detachedSpawned : Bool := false
deriving DecidableEq, Repr

/-- Embeds checkTransactionReadPref (x/mongo/driverlegacy/read.go): inside
a running transaction a secondary, secondaryPreferred, nearest or
primaryPreferred read preference is rejected with ErrNonPrimaryRP. -/
def checkTransactionReadPref (pref : Option ReadPref) : Option DispatchErr :=
  match pref with
  | some p =>
    if p.mode = .secondary ∨ p.mode = .secondaryPreferred ∨
        p.mode = .nearest ∨ p.mode = .primaryPreferred then
      some .nonPrimaryRP
    else
      Option.none
  | Option.none => Option.none

/-- Embeds getReadPrefBasedOnTransaction (x/mongo/driverlegacy/read.go):
inside a running transaction the transaction's read preference overrides
the current one and is checked; otherwise the current one is kept. -/
def getReadPrefBasedOnTransaction (current : Option ReadPref)
    (sess : Option ClientSession) : Except DispatchErr (Option ReadPref) :=
  match sess with
  | some s =>
    if s.transactionRunning then
      match checkTransactionReadPref s.currentRp with
      | some e => .error e
      | Option.none => .ok s.currentRp
    else .ok current
  | Option.none => .ok current

/-- Common tail of the legacy dispatch functions (the connection is already
checked out and its close deferred): when the command carries no session
and the topology supports sessions an implicit session is created (failing
the call when creation fails) and its end deferred; then the round trip
runs with whatever session is attached. -/
def dispatchTail (sessKind : Option SessionKind) (topo : TopologyModel)
    (env : DispatchEnv) : DispatchTrace :=
  match sessKind with
  | Option.none =>
    if topo.supportsSessions then
      if env.newSessionOk = false then
        { err := some .newSessionFailed, connClosedByCaller := true }
      else
        { err := if env.roundTripOk then Option.none else some .roundTripFailed,
          roundTripRan := true, roundTripSession := some .implicitK,
          implicitCreated := true, implicitEnded := true, connClosedByCaller := true }
    else
      { err := if env.roundTripOk then Option.none else some .roundTripFailed,
        roundTripRan := true, connClosedByCaller := true }
  | some k =>
    { err := if env.roundTripOk then Option.none else some .roundTripFailed,
      roundTripRan := true, roundTripSession := some k, connClosedByCaller := true }

/-- A read command as consulted by the Read dispatch. -/
structure ReadCmd where
  session : Option ClientSession
  readPref : Option ReadPref
deriving DecidableEq, Repr

/-- Embeds Read (x/mongo/driverlegacy/read.go): select a server (the pinned
server overriding the selector only changes which server is asked, which
the trace abstracts), check out a connection and defer its close, reject a
non-primary operation-level read preference inside a running transaction,
create an implicit session when needed, and run the round trip. -/
def Read (cmd : ReadCmd) (topo : TopologyModel) (env : DispatchEnv) : DispatchTrace :=
  if env.selectOk = false then
    { err := some .selectFailed }
  else if env.connOk = false then
    { err := some .connFailed }
  else
    match cmd.session with
    | some s =>
      if s.transactionRunning then
        match checkTransactionReadPref cmd.readPref with
        | some e => { err := some e, connClosedByCaller := true }
        | Option.none => dispatchTail (some s.kind) topo env
      else dispatchTail (some s.kind) topo env
    | Option.none => dispatchTail Option.none topo env

/-- A write command as consulted by the Write dispatch. -/
structure WriteCmd where
  session : Option ClientSession
  writeConcern : WriteConcern
deriving DecidableEq, Repr

/-- Embeds Write (x/mongo/driverlegacy/write.go): select a server, check
out a connection; for an unacknowledged write concern spawn the detached
round-trip goroutine (which owns the connection — the caller registers no
close) and return command.ErrUnacknowledgedWrite at once, independent of
the round trip's outcome; otherwise defer the connection close, create an
implicit session when needed, and run the round trip. -/
def Write (cmd : WriteCmd) (topo : TopologyModel) (env : DispatchEnv) : DispatchTrace :=
  if env.selectOk = false then
    { err := some .selectFailed }
  else if env.connOk = false then
    { err := some .connFailed }
  else if ackWrite cmd.writeConcern = false then
    { err := some .unacknowledgedWrite, detachedSpawned := true }
  else
    dispatchTail ((cmd.session).map fun s => s.kind) topo env

/-- Count-specific options consulted by CountDocuments. -/
structure CountOpts where
  maxTime : Option Int := Option.none
  collation : Bool := false
  hint : Bool := false
deriving DecidableEq, Repr

/-- Collaborator outcomes specific to CountDocuments. -/
structure CountEnv extends DispatchEnv where
  wireVersionMax : Int
  collationDocOk : Bool := true
  hintOk : Bool := true
deriving DecidableEq, Repr

/-- Option processing and round trip of CountDocuments, after the implicit
session decision: a collation needs wire version at least 5 and a readable
collation document, a hint must convert to an element; the deferred
EndSession and connection close run on every return path. -/
def countAfterSession (sessKind : Option SessionKind) (implicitCreated : Bool)
    (opts : CountOpts) (env : CountEnv) : DispatchTrace :=
  if opts.collation && decide (env.wireVersionMax < 5) then
    { err := some .collationUnsupported, implicitCreated := implicitCreated,
      implicitEnded := implicitCreated, connClosedByCaller := true }
  else if opts.collation && !env.collationDocOk then
    { err := some .collationDocFailed, implicitCreated := implicitCreated,
      implicitEnded := implicitCreated, connClosedByCaller := true }
  else if opts.hint && !env.hintOk then
    { err := some .hintFailed, implicitCreated := implicitCreated,
      implicitEnded := implicitCreated, connClosedByCaller := true }
  else
    { err := if env.roundTripOk then Option.none else some .roundTripFailed,
      roundTripRan := true, roundTripSession := sessKind,
      implicitCreated := implicitCreated, implicitEnded := implicitCreated,
      connClosedByCaller := true }

/-- Embeds CountDocuments (x/mongo/driverlegacy): select a server, check
out a connection and defer its close, resolve the read preference against
the transaction state, create an implicit session when needed, process the
count options, and run the round trip. -/
def CountDocuments (cmd : ReadCmd) (topo : TopologyModel) (opts : CountOpts)
    (env : CountEnv) : DispatchTrace :=
  if env.selectOk = false then
    { err := some .selectFailed }
  else if env.connOk = false then
    { err := some .connFailed }
  else
    match getReadPrefBasedOnTransaction cmd.readPref cmd.session with
    | .error e => { err := some e, connClosedByCaller := true }
    | .ok _ =>
      match cmd.session with
      | Option.none =>
        if topo.supportsSessions then
          if env.newSessionOk = false then
            { err := some .newSessionFailed, connClosedByCaller := true }
          else
            countAfterSession (some .implicitK) true opts env
        else
          countAfterSession Option.none false opts env
      | some s => countAfterSession (some s.kind) false opts env

/-- DropIndexes-specific options. -/
structure DropIndexesOpts where
  maxTime : Option Int := Option.none
deriving DecidableEq, Repr

/-- Embeds DropIndexes (x/mongo/driverlegacy/delete_indexes.go): select a
server, check out a connection and defer its close, append the maxTimeMS
option (which the trace abstracts), create an implicit session when
needed, and run the round trip. -/
def DropIndexes (cmd : ReadCmd) (topo : TopologyModel) (_opts : DropIndexesOpts)
    (env : DispatchEnv) : DispatchTrace :=
  if env.selectOk = false then
    { err := some .selectFailed }
  else if env.connOk = false then
    { err := some .connFailed }
  else
    dispatchTail ((cmd.session).map fun s => s.kind) topo env

/-! Go defer semantics for the detached round-trip goroutine spawned by
Write on the unacknowledged path. -/

/-- The two deferred calls registered by the goroutine body. -/
inductive DeferAction where
  | closeConn
  | recoverPanic
deriving DecidableEq, Repr

/-- State of the detached task: whether its connection is still open and
whether a panic is propagating. -/
structure TaskState where
  connOpen : Bool
  panicking : Bool
deriving DecidableEq, Repr

/-- Effect of one deferred call. -/
def runDefer (s : TaskState) : DeferAction → TaskState
  | .closeConn => { s with connOpen := false }
  | .recoverPanic => { s with panicking := false }

/-- Deferred calls run in reverse registration order once the body ends,
whether it returned normally or is panicking. -/
def runDefers (s : TaskState) (registered : List DeferAction) : TaskState :=
  registered.reverse.foldl runDefer s

/-- The detached goroutine body of Write (write.go lines 47-52): it
registers recover() then conn.Close(), runs the round trip discarding its
result, and lets the deferred calls run; roundTripPanics says whether the
round trip panicked. -/
def detachedWriteTask (roundTripPanics : Bool) : TaskState :=
  runDefers { connOpen := true, panicking := roundTripPanics }
    [.recoverPanic, .closeConn]

/-! Operation execution engine.  The engine source (operation.go of
x/mongo/driver) is not among the sources — only its tests are — so the
definitions below are modelled from the spec. -/

/-- Modelled from the spec: the RetryType enumeration of the operation
engine — none (RetryType zero value), retryable-read, retryable-write. -/
inductive RetryType where
  | none
  | read
  | write
deriving DecidableEq, Repr

/-- The parts of an Operation consulted by the retry classification. -/
structure OperationRetryConfig where
  retryType : RetryType
  deploymentSupportsRetry : Bool
  client : Option ClientSession := Option.none
  writeConcern : WriteConcern := Option.none
deriving DecidableEq, Repr

/-- A transaction is active on the optionally attached session: starting or
in progress. -/
def txnActive (client : Option ClientSession) : Bool :=
  (client.map fun s => s.transactionInProgress || s.transactionStarting).getD false

/-- Modelled from the spec: Operation.retryable (operation.go is not among
the sources).  Per spec section 4.2 step 7 the classification is computed
per invocation: retryable only if the Deployment advertises retry support,
the wire version meets the minimum for the classified type, no transaction
is starting or in progress, and — for writes — the write concern is
acknowledged; a configured RetryType of none never retries. -/
def retryable (op : OperationRetryConfig) (wire : Option VersionRange) : RetryType :=
  match op.retryType with
  | .write =>
    if txnActive op.client then .none
    else if op.deploymentSupportsRetry && sessionsSupported wire &&
        ackWrite op.writeConcern then .write
    else .none
  | .read =>
    if txnActive op.client then .none
    else if op.deploymentSupportsRetry && sessionsSupported wire then .read
    else .none
  | .none => .none

/-- A connection's wire behaviour for one round trip: the write outcome and
the read outcome (error message or the bytes read). -/
structure WireConn where
  writeErr : Option String := Option.none
  readErr : Option String := Option.none
  readWM : List Nat := []
deriving DecidableEq, Repr

/-- An engine error value: a message and its labels. -/
structure LabeledError where
  message : String
  labels : List String
deriving DecidableEq, Repr

/-- The TransientTransactionError label. -/
def TransientTransactionError : String := "TransientTransactionError"

/-- The NetworkError label. -/
def NetworkError : String := "NetworkError"

/-- Modelled from the spec: Operation.roundTrip (operation.go is not among
the sources).  The command is written as one wire message; a write failure
is wrapped into an error carrying the TransientTransactionError and
NetworkError labels and nothing is read; a read failure is wrapped the same
way with the read's bytes passed through; on success the read bytes are
returned unchanged. -/
def roundTrip (conn : WireConn) (_wm : List Nat) : List Nat × Option LabeledError :=
  match conn.writeErr with
  | some msg => ([], some { message := msg, labels := [TransientTransactionError, NetworkError] })
  | Option.none =>
    match conn.readErr with
    | some msg =>
      (conn.readWM, some { message := msg, labels := [TransientTransactionError, NetworkError] })
    | Option.none => (conn.readWM, Option.none)

/-- A cluster time value: the (t, i) timestamp carried under $clusterTime,
compared lexicographically. -/
abbrev ClusterTimeVal := Nat × Nat

/-- Lexicographic order on cluster time values. -/
def ctLE (a b : ClusterTimeVal) : Bool :=
  decide (a.1 < b.1) || (a.1 == b.1 && decide (a.2 ≤ b.2))

/-- Order on optional cluster times: an unset time is below everything. -/
def ctLEOpt : Option ClusterTimeVal → Option ClusterTimeVal → Bool
  | Option.none, _ => true
  | some _, Option.none => false
  | some a, some b => ctLE a b

/-- Modelled from the spec: the greater of two cluster time values. -/
def maxClusterTime (a b : ClusterTimeVal) : ClusterTimeVal :=
  if ctLE a b then b else a

/-- Modelled from the spec: AdvanceClusterTime of a clock or session
(session.ClusterClock and session.Client are not among the sources) — the
stored cluster time only ever advances to the maximum of the currently held
value and the newly observed value; an absent incoming value is a no-op. -/
def advanceClusterTime (stored incoming : Option ClusterTimeVal) : Option ClusterTimeVal :=
  match stored, incoming with
  | Option.none, x => x
  | s, Option.none => s
  | some s, some x => some (maxClusterTime s x)

/-- Server kinds consulted when building the read preference document. -/
inductive ServerKind where
  | standalone
  | rsPrimary
  | rsSecondary
  | mongos
deriving DecidableEq, Repr

/-- Topology kinds consulted when building the read preference document. -/
inductive TopologyKind where
  | single
  | replicaSet
  | sharded
deriving DecidableEq, Repr

/-- The read preference document the engine appends to a command: its mode
string, tag sets and maxStalenessSeconds. -/
structure RPDoc where
  mode : String
  tagSets : List (List (String × String)) := []
  maxStalenessSeconds : Option Int := Option.none
deriving DecidableEq, Repr

/-- Modelled from the spec: Operation.createReadPref (operation.go is not
among the sources).  With no configured preference a single-topology
non-mongos server gets primaryPreferred and anything else no document; a
primary preference is omitted on a mongos, softened to primaryPreferred on
a single topology, and kept otherwise; a secondaryPreferred preference
without tags or max staleness is omitted on a mongos addressed with the
legacy query opcode; other modes keep their name; tag sets and max
staleness are carried into the document. -/
def createReadPref (rp : Option ReadPref) (serverKind : ServerKind)
    (topologyKind : TopologyKind) (isOpQuery : Bool) : Option RPDoc :=
  match rp with
  | Option.none =>
    if topologyKind = .single ∧ serverKind ≠ .mongos then
      some { mode := "primaryPreferred" }
    else
      Option.none
  | some r =>
    let base : Option String :=
      match r.mode with
      | .primary =>
        if serverKind = .mongos then Option.none
        else if topologyKind = .single then some "primaryPreferred"
        else some "primary"
      | .primaryPreferred => some "primaryPreferred"
      | .secondaryPreferred =>
        if serverKind = .mongos ∧ isOpQuery ∧ r.maxStaleness = Option.none ∧
            r.tagSets = [] then
          Option.none
        else
          some "secondaryPreferred"
      | .secondary => some "secondary"
      | .nearest => some "nearest"
    base.map fun m =>
      { mode := m, tagSets := r.tagSets, maxStalenessSeconds := r.maxStaleness }

/-! Concrete example values used to instantiate the theorems. -/

/-- An example connection stamped at generation 1 by pool 0. -/
def cEx : Connection :=
  { poolRef := 0, poolID := 1, generation := 1, nc := true, ncCloseErr := false }

/-- An example connected pool holding cEx idle. -/
def pEx : Pool :=
  { selfRef := 0, nextid := 1, size := 2, conns := [cEx], generation := 1,
    connected := .connected, opened := [1] }

/-- An example get environment with a live context and successful dial. -/
def envEx : GetEnv :=
  { ctxDone := false, dialOk := true, connectedAfterDial := .connected,
    ncCloseErrNew := false }

/-- A connected pool with one checked-out connection (id 1) and no idle
connections: the failing input of the disconnect graceful-wait window. -/
def pC1 : Pool :=
  { selfRef := 0, nextid := 1, size := 1, conns := [], generation := 1,
    connected := .connected, opened := [1] }

/-- An empty connected pool whose get will dial a fresh connection. -/
def pEmpty : Pool :=
  { selfRef := 0, nextid := 0, size := 1, conns := [], generation := 1,
    connected := .connected, opened := [] }

/-- A get environment in which the pool starts disconnecting while the new
connection is being created. -/
def envRaced : GetEnv :=
  { ctxDone := false, dialOk := true, connectedAfterDial := .disconnecting,
    ncCloseErrNew := false }

/-- A retryable-read operation with an unacknowledged write concern. -/
def opC2 : OperationRetryConfig :=
  { retryType := .read, deploymentSupportsRetry := true, client := Option.none,
    writeConcern := some { w := 0, j := false } }

/-- A retryable-write operation against a retry-capable deployment. -/
def opC2w : OperationRetryConfig :=
  { retryType := .write, deploymentSupportsRetry := true, client := Option.none,
    writeConcern := Option.none }

/-- A wire version range supporting sessions (max 7). -/
def wireEx : Option VersionRange := some { min := 0, max := 7 }

/-- An example dispatch environment in which every collaborator succeeds. -/
def denvEx : DispatchEnv :=
  { selectOk := true, connOk := true, newSessionOk := true, roundTripOk := true }

/-- An example sessions-capable topology. -/
def topoEx : TopologyModel := { supportsSessions := true }

/-- An explicit session with a transaction in progress. -/
def sessTxn : ClientSession := { kind := .explicitK, txnState := .inProgress }

/-! Helper lemmas about the pool operations. -/

theorem close_pool_eq (p : Pool) (c : Connection) :
    (close p c).pool = if c.poolRef = p.selfRef
      then { p with opened := p.opened.filter (fun i => i ≠ c.poolID) }
      else p := by
  by_cases h : c.poolRef = p.selfRef
  · by_cases hnc : c.nc = false <;> simp [close, h, hnc]
  · simp [close, h]

theorem close_pool_generation (p : Pool) (c : Connection) :
    (close p c).pool.generation = p.generation := by
  rw [close_pool_eq]; split <;> rfl

theorem close_pool_selfRef (p : Pool) (c : Connection) :
    (close p c).pool.selfRef = p.selfRef := by
  rw [close_pool_eq]; split <;> rfl

theorem close_pool_conns (p : Pool) (c : Connection) :
    (close p c).pool.conns = p.conns := by
  rw [close_pool_eq]; split <;> rfl

theorem close_conn_nc (p : Pool) (c : Connection) (h : c.poolRef = p.selfRef) :
    (close p c).conn.nc = false := by
  by_cases hnc : c.nc = false <;> simp [close, h, hnc]

theorem foldl_close_generation (l : List Connection) (p : Pool) :
    (l.foldl (fun q c => (close q c).pool) p).generation = p.generation := by
  induction l generalizing p with
  | nil => rfl
  | cons c rest ih => rw [List.foldl_cons, ih, close_pool_generation]

theorem getDefault_pool_generation (env : GetEnv) (p : Pool) :
    (getDefault env p).pool.generation = p.generation := by
  unfold getDefault
  split
  · rfl
  · split
    · rfl
    · split
      · exact close_pool_generation _ _
      · rfl

theorem getDefault_pool_selfRef (env : GetEnv) (p : Pool) :
    (getDefault env p).pool.selfRef = p.selfRef := by
  unfold getDefault
  split
  · rfl
  · split
    · rfl
    · split
      · exact close_pool_selfRef _ _
      · rfl

theorem getLoop_pool_generation (env : GetEnv) (l : List Connection) (p : Pool) :
    (getLoop env l p).pool.generation = p.generation := by
  induction l generalizing p with
  | nil => exact getDefault_pool_generation env p
  | cons c rest ih =>
    unfold getLoop
    split
    · exact ih _
    · rfl

theorem getLoop_pool_selfRef (env : GetEnv) (l : List Connection) (p : Pool) :
    (getLoop env l p).pool.selfRef = p.selfRef := by
  induction l generalizing p with
  | nil => exact getDefault_pool_selfRef env p
  | cons c rest ih =>
    unfold getLoop
    split
    · exact ih _
    · rfl

theorem get_pool_generation (env : GetEnv) (p : Pool) :
    (get env p).pool.generation = p.generation := by
  unfold get
  split
  · rfl
  · exact getLoop_pool_generation env p.conns p

theorem get_pool_selfRef (env : GetEnv) (p : Pool) :
    (get env p).pool.selfRef = p.selfRef := by
  unfold get
  split
  · rfl
  · exact getLoop_pool_selfRef env p.conns p

theorem getDefault_ok_conn (env : GetEnv) (p : Pool) (c : Connection)
    (h : (getDefault env p).res = .ok c) :
    c.poolRef = p.selfRef ∧ c.generation ≤ p.generation := by
  unfold getDefault at h
  split at h
  · exact absurd h (by simp)
  · split at h
    · exact absurd h (by simp)
    · split at h
      · exact absurd h (by simp)
      · simp at h
        subst h
        exact ⟨rfl, le_refl _⟩

theorem getLoop_ok_conn (env : GetEnv) (l : List Connection) (p : Pool) (c : Connection)
    (hl : ∀ d ∈ l, d.poolRef = p.selfRef ∧ d.generation ≤ p.generation)
    (h : (getLoop env l p).res = .ok c) :
    c.poolRef = p.selfRef ∧ c.generation ≤ p.generation := by
  induction l generalizing p with
  | nil => exact getDefault_ok_conn env p c h
  | cons d rest ih =>
    unfold getLoop at h
    split at h
    · have := ih { p with conns := rest, opened := closeOpened p d }
        (fun e he => hl e (List.mem_cons_of_mem d he)) h
      exact this
    · simp at h
      subst h
      exact hl _ (List.mem_cons_self _ _)

theorem get_ok_conn (env : GetEnv) (p : Pool) (c : Connection)
    (hwf : PoolWF p) (h : (get env p).res = .ok c) :
    c.poolRef = p.selfRef ∧ c.generation ≤ p.generation := by
  unfold get at h
  split at h
  · exact absurd h (by simp)
  · exact getLoop_ok_conn env p.conns p c hwf.1 h

theorem put_pool_generation (p : Pool) (c : Connection) :
    (put p c).pool.generation = p.generation := by
  unfold put
  split
  · rfl
  · split
    · exact close_pool_generation _ _
    · split
      · rfl
      · exact close_pool_generation _ _

theorem disconnect_pool_generation (p : Pool) (now : Int) (dl : Option Int)
    (et : Option Nat) : (disconnect p now dl et).pool.generation = p.generation := by
  unfold disconnect
  split
  · rfl
  · exact foldl_close_generation p.conns _

/-! Claim theorems. -/

/-- C1: evidence for the broken graceful-shutdown window of disconnect
(write.go line 233).  The timer duration is computed as now − deadline,
which is −30 for a deadline 30 seconds ahead, so the timer fires
immediately: with connection id 1 still checked out and never returned, the
force-close sweep runs at time 0 — before the deadline has elapsed and
while the opened set is non-empty — force-closing the checked-out
connection; the call still ends with the pool disconnected and a nil
error. -/
theorem C1_disconnect_window_evidence :
    disconnectTimerDuration 0 30 = -30 ∧
    (disconnect pC1 0 (some 30) Option.none).sweepTime = 0 ∧
    ((0 : Int) < 30 ∧ (disconnect pC1 0 (some 30) Option.none).forced = [1]) ∧
    (disconnect pC1 0 (some 30) Option.none).err = Option.none ∧
    (disconnect pC1 0 (some 30) Option.none).pool.connected = .disconnected := by
  decide

/-- C4: the pool generation counter never decreases under any pool
operation; a connection is classified expired exactly when its recorded
generation is below the pool's current generation; and a connection checked
out by get before a drain is closed by the next put — its transport closed,
its id removed from the opened map, the idle cache untouched — rather than
cached. -/
theorem C4_generation_monotone_expired_drain_put :
    (∀ (p : Pool) (op : PoolOp), p.generation ≤ (applyOp p op).generation) ∧
    (∀ (p : Pool) (g : Nat), expired p g = true ↔ g < p.generation) ∧
    (∀ (env : GetEnv) (p : Pool) (c : Connection), PoolWF p →
      (get env p).res = .ok c →
      (put (drain (get env p).pool) c).cached = false ∧
      (put (drain (get env p).pool) c).conn.nc = false ∧
      (put (drain (get env p).pool) c).pool.conns = (drain (get env p).pool).conns ∧
      c.poolID ∉ (put (drain (get env p).pool) c).pool.opened) := by
  refine ⟨?_, ?_, ?_⟩
  · intro p op
    cases op with
    | drainOp => exact Nat.le_succ _
    | connectOp =>
      show p.generation ≤ (match connect p with | .ok q => q | .error _ => p).generation
      by_cases h : p.connected = .disconnected <;> simp [connect, h]
    | disconnectOp now dl et =>
      show p.generation ≤ (disconnect p now dl et).pool.generation
      rw [disconnect_pool_generation]
    | getOp env =>
      show p.generation ≤ (get env p).pool.generation
      rw [get_pool_generation]
    | putOp c =>
      show p.generation ≤ (put p c).pool.generation
      rw [put_pool_generation]
    | closeOp c =>
      show p.generation ≤ (close p c).pool.generation
      rw [close_pool_generation]
  · intro p g
    simp [expired]
  · intro env p c hwf hget
    obtain ⟨hcref, hcgen⟩ := get_ok_conn env p c hwf hget
    have href : (get env p).pool.selfRef = p.selfRef := get_pool_selfRef env p
    have hgen : (get env p).pool.generation = p.generation := get_pool_generation env p
    have hwrong : ¬ c.poolRef ≠ (drain (get env p).pool).selfRef := by
      simp [drain, href, hcref]
    have hexp : expired (drain (get env p).pool) c.generation = true := by
      simp only [expired, drain, hgen, decide_eq_true_eq]
      omega
    have hcond : (drain (get env p).pool).connected ≠ .connected ∨
        expired (drain (get env p).pool) c.generation := Or.inr (by simp [hexp])
    unfold put
    rw [if_neg hwrong, if_pos hcond]
    refine ⟨rfl, close_conn_nc _ _ ?_, close_pool_conns _ _, ?_⟩
    · simp [drain, href, hcref]
    · show c.poolID ∉ (close (drain (get env p).pool) c).pool.opened
      rw [close_pool_eq, if_pos (by simp [drain, href, hcref] :
        c.poolRef = (drain (get env p).pool).selfRef)]
      simp

/-- Witness for C4 at a concrete pool: the connection checked out of pEx is
closed, not cached, by the put that follows a drain. -/
theorem C4_witness :
    (put (drain (get envEx pEx).pool) cEx).cached = false ∧
    (put (drain (get envEx pEx).pool) cEx).conn.nc = false ∧
    (put (drain (get envEx pEx).pool) cEx).pool.conns = (drain (get envEx pEx).pool).conns ∧
    cEx.poolID ∉ (put (drain (get envEx pEx).pool) cEx).pool.opened := by
  refine C4_generation_monotone_expired_drain_put.2.2 envEx pEx cEx ?_ (by decide)
  unfold PoolWF
  refine ⟨?_, ?_⟩ <;> decide

/-- C6: get on a pool outside the connected state fails with
ErrPoolDisconnected and changes nothing; and when the pool leaves the
connected state while a fresh connection is being dialled, get closes that
connection (transport closed, id absent from the opened map) and fails with
ErrPoolDisconnected, leaving the opened map as it was. -/
theorem C6_get_disconnected_paths :
    (∀ (env : GetEnv) (p : Pool), p.connected ≠ .connected →
      (get env p).res = .error .poolDisconnected ∧ (get env p).pool = p ∧
      (get env p).createdClosed = Option.none) ∧
    (∀ (env : GetEnv) (p : Pool),
      p.connected = .connected → p.conns = [] → env.ctxDone = false →
      env.dialOk = true → env.connectedAfterDial ≠ .connected →
      (∀ i ∈ p.opened, i ≤ p.nextid) →
      (get env p).res = .error .poolDisconnected ∧
      (get env p).createdClosed =
        some { poolRef := p.selfRef, poolID := p.nextid + 1,
               generation := p.generation, nc := false,
               ncCloseErr := env.ncCloseErrNew } ∧
      (get env p).pool.opened = p.opened) := by
  constructor
  · intro env p h
    unfold get
    rw [if_pos h]
    exact ⟨rfl, rfl, rfl⟩
  · intro env p hconn hconns hctx hdial hafter hopened
    simp only [get, hconns, getLoop, getDefault, close, hconn, hctx, hdial, ne_eq,
      not_true_eq_false, if_false, Bool.false_eq_true, not_false_eq_true, if_true]
    simp [hafter]
    intro a ha
    have := hopened a ha
    omega

/-- Witness for C6 at concrete pools: a disconnected pool rejects get, and
a pool that starts disconnecting during the dial closes the new
connection. -/
theorem C6_witness :
    ((get envEx (newPool 0 1)).res = .error .poolDisconnected ∧
      (get envEx (newPool 0 1)).pool = newPool 0 1 ∧
      (get envEx (newPool 0 1)).createdClosed = Option.none) ∧
    ((get envRaced pEmpty).res = .error .poolDisconnected ∧
      (get envRaced pEmpty).createdClosed =
        some { poolRef := 0, poolID := 1, generation := 1, nc := false,
               ncCloseErr := false } ∧
      (get envRaced pEmpty).pool.opened = pEmpty.opened) := by
  constructor
  · exact C6_get_disconnected_paths.1 envEx (newPool 0 1) (by decide)
  · exact C6_get_disconnected_paths.2 envRaced pEmpty rfl rfl rfl rfl (by decide)
      (by decide)

/-- C2 counterexample: a retryable-read-configured operation with an
unacknowledged write concern, a retry-capable deployment, a sufficient wire
version and no transaction is classified retryable-read, not none — the
write concern only gates the classification of writes (spec section 4.2:
"AND — for writes — the write concern is acknowledged"). -/
theorem C2_counterexample :
    ackWrite opC2.writeConcern = false ∧
    retryable opC2 wireEx = .read ∧
    ¬ retryable opC2 wireEx = .none := by
  decide

/-- C2 (amended): the classification is RetryType none whenever the
deployment does not support retry, or the wire version is below the
minimum, or a transaction is starting or in progress, or the operation is
configured retryable-write with an unacknowledged write concern; and it is
retryable-write exactly when retryable-write is configured, the deployment
supports retry, the wire version is sufficient, the write concern is
acknowledged and no transaction is active. -/
theorem C2_retry_matrix :
    (∀ (op : OperationRetryConfig) (wire : Option VersionRange),
      op.deploymentSupportsRetry = false ∨ sessionsSupported wire = false ∨
        txnActive op.client = true ∨
        (op.retryType = .write ∧ ackWrite op.writeConcern = false) →
      retryable op wire = .none) ∧
    (∀ (op : OperationRetryConfig) (wire : Option VersionRange),
      retryable op wire = .write ↔
        op.retryType = .write ∧ op.deploymentSupportsRetry = true ∧
        sessionsSupported wire = true ∧ ackWrite op.writeConcern = true ∧
        txnActive op.client = false) := by
  constructor
  · intro op wire h
    unfold retryable
    cases hrt : op.retryType with
    | none => rfl
    | read =>
      rcases h with h | h | h | ⟨h1, h2⟩
      · simp [h]
      · simp [h]
      · simp [h]
      · rw [hrt] at h1; cases h1
    | write =>
      rcases h with h | h | h | ⟨h1, h2⟩
      · simp [h]
      · simp [h]
      · simp [h]
      · simp [h2]
  · intro op wire
    cases hrt : op.retryType with
    | none => simp [retryable, hrt]
    | read =>
      by_cases h1 : txnActive op.client <;>
        by_cases h2 : (op.deploymentSupportsRetry && sessionsSupported wire) = true <;>
          simp [retryable, hrt, h1, h2]
    | write =>
      by_cases h1 : txnActive op.client <;>
        by_cases h2 : op.deploymentSupportsRetry <;>
          by_cases h3 : sessionsSupported wire <;>
            by_cases h4 : ackWrite op.writeConcern <;>
              simp [retryable, hrt, h1, h2, h3, h4]

/-- Witness for C2: the acknowledged retryable-write configuration against
a retry-capable deployment and wire version 7 is classified
retryable-write. -/
theorem C2_witness : retryable opC2w wireEx = .write :=
  (C2_retry_matrix.2 opC2w wireEx).mpr (by decide)

/-- C3: the round trip surfaces any write failure or read failure as an
error carrying exactly the labels TransientTransactionError and
NetworkError, and on success returns the bytes produced by the read
unchanged with no error. -/
theorem C3_roundtrip_labels :
    (∀ (conn : WireConn) (wm : List Nat),
      conn.writeErr ≠ Option.none ∨ conn.readErr ≠ Option.none →
      ∃ e, (roundTrip conn wm).2 = some e ∧
        e.labels = [TransientTransactionError, NetworkError]) ∧
    (∀ (conn : WireConn) (wm : List Nat),
      conn.writeErr = Option.none → conn.readErr = Option.none →
      roundTrip conn wm = (conn.readWM, Option.none)) := by
  constructor
  · intro conn wm h
    unfold roundTrip
    cases hw : conn.writeErr with
    | some msg => exact ⟨_, rfl, rfl⟩
    | none =>
      cases hr : conn.readErr with
      | some msg => exact ⟨_, rfl, rfl⟩
      | none => rw [hw, hr] at h; rcases h with h | h <;> exact absurd rfl h
  · intro conn wm h1 h2
    unfold roundTrip
    rw [h1, h2]

/-- Witness for C3: a failing write surfaces the two labels; a clean
round trip returns the read bytes. -/
theorem C3_witness :
    (∃ e, (roundTrip { writeErr := some "write error" } []).2 = some e ∧
      e.labels = [TransientTransactionError, NetworkError]) ∧
    roundTrip { readWM := [1, 2, 3, 4] } [] = ([1, 2, 3, 4], Option.none) := by
  constructor
  · exact C3_roundtrip_labels.1 { writeErr := some "write error" } []
      (Or.inl (by simp))
  · exact C3_roundtrip_labels.2 { readWM := [1, 2, 3, 4] } [] rfl rfl

/-- C5 counterexample: on a clock already holding the newer time
(2000, 0), applying the older (1234, 5670) and then the newer
(1234, 5678) leaves (2000, 0), not (1234, 5678): the stored value is the
maximum of everything observed, not the last pair applied. -/
theorem C5_counterexample :
    ctLE (1234, 5670) (1234, 5678) = true ∧
    advanceClusterTime (advanceClusterTime (some (2000, 0)) (some (1234, 5670)))
        (some (1234, 5678)) = some (2000, 0) ∧
    ¬ advanceClusterTime (advanceClusterTime (some (2000, 0)) (some (1234, 5670)))
        (some (1234, 5678)) = some (1234, 5678) := by
  decide

theorem ctLE_iff (a b : ClusterTimeVal) :
    ctLE a b = true ↔ a.1 < b.1 ∨ (a.1 = b.1 ∧ a.2 ≤ b.2) := by
  simp [ctLE]

theorem ctLE_refl (a : ClusterTimeVal) : ctLE a a = true := by
  rw [ctLE_iff]; omega

theorem ctLE_trans {a b c : ClusterTimeVal} (h1 : ctLE a b = true)
    (h2 : ctLE b c = true) : ctLE a c = true := by
  rw [ctLE_iff] at h1 h2 ⊢; omega

theorem ctLEOpt_refl (s : Option ClusterTimeVal) : ctLEOpt s s = true := by
  cases s with
  | none => rfl
  | some a => exact ctLE_refl a

theorem ctLEOpt_trans {a b c : Option ClusterTimeVal} (h1 : ctLEOpt a b = true)
    (h2 : ctLEOpt b c = true) : ctLEOpt a c = true := by
  cases a with
  | none => rfl
  | some x =>
    cases b with
    | none => simp [ctLEOpt] at h1
    | some y =>
      cases c with
      | none => simp [ctLEOpt] at h2
      | some z => exact ctLE_trans h1 h2

theorem advance_mono (s x : Option ClusterTimeVal) :
    ctLEOpt s (advanceClusterTime s x) = true := by
  cases s with
  | none => rfl
  | some a =>
    cases x with
    | none => exact ctLE_refl a
    | some b =>
      show ctLE a (maxClusterTime a b) = true
      unfold maxClusterTime
      split
      · assumption
      · exact ctLE_refl a

/-- C5 (amended): starting from an unset stored cluster time, applying an
older value A and a newer value B in either order leaves the stored time
equal to B; and from any stored value, the stored time never regresses
under one advance or under any sequence of advances. -/
theorem C5_cluster_time_monotonic :
    (∀ A B : ClusterTimeVal, ctLE A B = true →
      advanceClusterTime (advanceClusterTime Option.none (some A)) (some B) = some B ∧
      advanceClusterTime (advanceClusterTime Option.none (some B)) (some A) = some B) ∧
    (∀ s x : Option ClusterTimeVal, ctLEOpt s (advanceClusterTime s x) = true) ∧
    (∀ (s : Option ClusterTimeVal) (xs : List (Option ClusterTimeVal)),
      ctLEOpt s (xs.foldl advanceClusterTime s) = true) := by
  refine ⟨?_, advance_mono, ?_⟩
  · intro A B h
    constructor
    · show some (if ctLE A B then B else A) = some B
      rw [if_pos h]
    · rcases A with ⟨a1, a2⟩
      rcases B with ⟨b1, b2⟩
      show some (if ctLE (b1, b2) (a1, a2) then (a1, a2) else (b1, b2)) = some (b1, b2)
      rw [ctLE_iff] at h
      split
      · rename_i hBA
        rw [ctLE_iff] at hBA
        simp at h hBA ⊢
        omega
      · rfl
  · intro s xs
    induction xs generalizing s with
    | nil => exact ctLEOpt_refl s
    | cons x rest ih =>
      rw [List.foldl_cons]
      exact ctLEOpt_trans (advance_mono s x) (ih (advanceClusterTime s x))

/-- Witness for C5 at the test's cluster times: (1234, 5670) and
(1234, 5678) applied in either order to an unset clock store
(1234, 5678). -/
theorem C5_witness :
    advanceClusterTime (advanceClusterTime Option.none (some (1234, 5670)))
        (some (1234, 5678)) = some (1234, 5678) ∧
    advanceClusterTime (advanceClusterTime Option.none (some (1234, 5678)))
        (some (1234, 5670)) = some (1234, 5678) :=
  C5_cluster_time_monotonic.1 (1234, 5670) (1234, 5678) (by decide)

/-- C7: for an unacknowledged write concern, Write returns the
unacknowledged-write error at once with no round trip on the caller's
path, the result is independent of the round trip's outcome, the caller
does not close the connection (the detached task owns it), and the
detached task closes the connection and swallows a panic on every exit
path. -/
theorem C7_unacknowledged_write :
    ∀ (cmd : WriteCmd) (topo : TopologyModel) (env : DispatchEnv),
      env.selectOk = true → env.connOk = true → ackWrite cmd.writeConcern = false →
      (Write cmd topo env).err = some .unacknowledgedWrite ∧
      (Write cmd topo env).roundTripRan = false ∧
      (Write cmd topo env).detachedSpawned = true ∧
      (Write cmd topo env).connClosedByCaller = false ∧
      (∀ b : Bool, Write cmd topo { env with roundTripOk := b } = Write cmd topo env) ∧
      (∀ pan : Bool, (detachedWriteTask pan).connOpen = false ∧
        (detachedWriteTask pan).panicking = false) := by
  intro cmd topo env h1 h2 h3
  refine ⟨?_, ?_, ?_, ?_, ?_, ?_⟩
  · simp [Write, h1, h2, h3]
  · simp [Write, h1, h2, h3]
  · simp [Write, h1, h2, h3]
  · simp [Write, h1, h2, h3]
  · intro b; simp [Write, h1, h2, h3]
  · intro pan; cases pan <;> exact ⟨rfl, rfl⟩

/-- Witness for C7: a w:0 write against a sessions-capable topology with
successful selection and checkout. -/
theorem C7_witness :
    (Write { session := Option.none, writeConcern := some { w := 0, j := false } }
      topoEx denvEx).err = some .unacknowledgedWrite ∧
    (Write { session := Option.none, writeConcern := some { w := 0, j := false } }
      topoEx denvEx).detachedSpawned = true := by
  have h := C7_unacknowledged_write
    { session := Option.none, writeConcern := some { w := 0, j := false } }
    topoEx denvEx rfl rfl (by decide)
  exact ⟨h.1, h.2.2.1⟩

/-- The twelve rows of the createReadPref test table
(operation_test.go, TestOperation/createReadPref). -/
theorem createReadPref_test_rows :
    createReadPref Option.none .mongos .single false = Option.none ∧
    createReadPref Option.none .rsSecondary .single false =
      some { mode := "primaryPreferred" } ∧
    createReadPref (some { mode := .primary }) .mongos .sharded false = Option.none ∧
    createReadPref (some { mode := .primary }) .rsPrimary .single false =
      some { mode := "primaryPreferred" } ∧
    createReadPref (some { mode := .primary }) .rsPrimary .replicaSet false =
      some { mode := "primary" } ∧
    createReadPref (some { mode := .primaryPreferred }) .rsSecondary .replicaSet false =
      some { mode := "primaryPreferred" } ∧
    createReadPref (some { mode := .secondaryPreferred }) .mongos .sharded true =
      Option.none ∧
    createReadPref (some { mode := .secondaryPreferred }) .rsSecondary .replicaSet false =
      some { mode := "secondaryPreferred" } ∧
    createReadPref (some { mode := .secondary }) .rsSecondary .replicaSet false =
      some { mode := "secondary" } ∧
    createReadPref (some { mode := .nearest }) .rsSecondary .replicaSet false =
      some { mode := "nearest" } ∧
    createReadPref
        (some { mode := .secondaryPreferred,
                tagSets := [[("disk", "ssd"), ("use", "reporting")]] })
        .rsSecondary .replicaSet false =
      some { mode := "secondaryPreferred",
             tagSets := [[("disk", "ssd"), ("use", "reporting")]] } ∧
    createReadPref (some { mode := .secondaryPreferred, maxStaleness := some 25 })
        .rsSecondary .replicaSet false =
      some { mode := "secondaryPreferred", maxStalenessSeconds := some 25 } := by
  refine ⟨rfl, rfl, rfl, rfl, rfl, rfl, rfl, rfl, rfl, rfl, rfl, rfl⟩

/-- C8: the three tabulated read-preference document shapes — a nil
preference on a single-topology mongos yields no document; a primary
preference on a single-topology non-primary server yields a
primaryPreferred document; a secondaryPreferred preference with no tags or
max staleness on a sharded-topology (mongos) server addressed with the
legacy query opcode yields no document. -/
theorem C8_read_pref_tabulated :
    createReadPref Option.none .mongos .single false = Option.none ∧
    createReadPref (some { mode := .primary }) .rsSecondary .single false =
      some { mode := "primaryPreferred" } ∧
    createReadPref (some { mode := .secondaryPreferred }) .mongos .sharded true =
      Option.none :=
  ⟨rfl, rfl, rfl⟩

/-- C9: inside a running transaction, a Read dispatched with a secondary,
secondaryPreferred, nearest or primaryPreferred operation-level read
preference returns ErrNonPrimaryRP and never performs the wire round
trip. -/
theorem C9_transaction_nonprimary_read_pref :
    ∀ (cmd : ReadCmd) (topo : TopologyModel) (env : DispatchEnv)
      (s : ClientSession) (rp : ReadPref),
      env.selectOk = true → env.connOk = true → cmd.session = some s →
      s.transactionRunning = true → cmd.readPref = some rp →
      (rp.mode = .secondary ∨ rp.mode = .secondaryPreferred ∨ rp.mode = .nearest ∨
        rp.mode = .primaryPreferred) →
      (Read cmd topo env).err = some .nonPrimaryRP ∧
      (Read cmd topo env).roundTripRan = false := by
  intro cmd topo env s rp h1 h2 hs htxn hrp hmode
  have hchk : checkTransactionReadPref cmd.readPref = some .nonPrimaryRP := by
    rw [hrp]
    show (if rp.mode = .secondary ∨ rp.mode = .secondaryPreferred ∨
          rp.mode = .nearest ∨ rp.mode = .primaryPreferred then
        some DispatchErr.nonPrimaryRP else Option.none) = some DispatchErr.nonPrimaryRP
    rw [if_pos hmode]
  simp [Read, h1, h2, hs, htxn, hchk]

/-- Witness for C9: a secondary read preference inside an in-progress
transaction is rejected without a round trip. -/
theorem C9_witness :
    (Read { session := some sessTxn, readPref := some { mode := .secondary } }
      topoEx denvEx).err = some .nonPrimaryRP ∧
    (Read { session := some sessTxn, readPref := some { mode := .secondary } }
      topoEx denvEx).roundTripRan = false :=
  C9_transaction_nonprimary_read_pref
    { session := some sessTxn, readPref := some { mode := .secondary } }
    topoEx denvEx sessTxn { mode := .secondary }
    rfl rfl rfl (by decide) rfl (Or.inl rfl)

theorem countAfterSession_trace (sk : Option SessionKind) (ic : Bool)
    (opts : CountOpts) (env : CountEnv) :
    (countAfterSession sk ic opts env).implicitCreated = ic ∧
    (countAfterSession sk ic opts env).implicitEnded = ic ∧
    ((countAfterSession sk ic opts env).roundTripRan = true →
      (countAfterSession sk ic opts env).roundTripSession = sk) := by
  unfold countAfterSession
  split
  · exact ⟨rfl, rfl, by simp⟩
  · split
    · exact ⟨rfl, rfl, by simp⟩
    · split
      · exact ⟨rfl, rfl, by simp⟩
      · exact ⟨rfl, rfl, fun _ => rfl⟩

/-- C10: for each of Read, acknowledged Write, CountDocuments and
DropIndexes, when the command carries no session and the topology supports
sessions, any round trip that runs does so with the implicit session the
dispatch created, and any implicit session created is ended when the call
returns. -/
theorem C10_implicit_sessions :
    (∀ (cmd : ReadCmd) (topo : TopologyModel) (env : DispatchEnv),
      cmd.session = Option.none → topo.supportsSessions = true →
      ((Read cmd topo env).roundTripRan = true →
        (Read cmd topo env).roundTripSession = some .implicitK ∧
        (Read cmd topo env).implicitCreated = true) ∧
      ((Read cmd topo env).implicitCreated = true →
        (Read cmd topo env).implicitEnded = true)) ∧
    (∀ (cmd : WriteCmd) (topo : TopologyModel) (env : DispatchEnv),
      cmd.session = Option.none → topo.supportsSessions = true →
      ackWrite cmd.writeConcern = true →
      ((Write cmd topo env).roundTripRan = true →
        (Write cmd topo env).roundTripSession = some .implicitK ∧
        (Write cmd topo env).implicitCreated = true) ∧
      ((Write cmd topo env).implicitCreated = true →
        (Write cmd topo env).implicitEnded = true)) ∧
    (∀ (cmd : ReadCmd) (topo : TopologyModel) (opts : CountOpts) (env : CountEnv),
      cmd.session = Option.none → topo.supportsSessions = true →
      ((CountDocuments cmd topo opts env).roundTripRan = true →
        (CountDocuments cmd topo opts env).roundTripSession = some .implicitK ∧
        (CountDocuments cmd topo opts env).implicitCreated = true) ∧
      ((CountDocuments cmd topo opts env).implicitCreated = true →
        (CountDocuments cmd topo opts env).implicitEnded = true)) ∧
    (∀ (cmd : ReadCmd) (topo : TopologyModel) (opts : DropIndexesOpts)
        (env : DispatchEnv),
      cmd.session = Option.none → topo.supportsSessions = true →
      ((DropIndexes cmd topo opts env).roundTripRan = true →
        (DropIndexes cmd topo opts env).roundTripSession = some .implicitK ∧
        (DropIndexes cmd topo opts env).implicitCreated = true) ∧
      ((DropIndexes cmd topo opts env).implicitCreated = true →
        (DropIndexes cmd topo opts env).implicitEnded = true)) := by
  refine ⟨?_, ?_, ?_, ?_⟩
  · intro cmd topo env hs ht
    obtain ⟨so, co, nso, rto⟩ := env
    cases so <;> cases co <;> cases nso <;> cases rto <;>
      simp [Read, dispatchTail, hs, ht]
  · intro cmd topo env hs ht hack
    obtain ⟨so, co, nso, rto⟩ := env
    cases so <;> cases co <;> cases nso <;> cases rto <;>
      simp [Write, dispatchTail, hs, ht, hack]
  · intro cmd topo opts env hs ht
    obtain ⟨⟨so, co, nso, rto⟩, wv, cdo, ho⟩ := env
    cases so with
    | false => simp [CountDocuments]
    | true =>
      cases co with
      | false => simp [CountDocuments]
      | true =>
        cases nso with
        | false => simp [CountDocuments, hs, ht, getReadPrefBasedOnTransaction]
        | true =>
          have h := countAfterSession_trace (some SessionKind.implicitK) true opts
            ⟨⟨true, true, true, rto⟩, wv, cdo, ho⟩
          simp only [CountDocuments, hs, ht, getReadPrefBasedOnTransaction]
          simp only [Bool.true_eq_false, if_false, if_true, ite_true, ite_false]
          exact ⟨fun hr => ⟨h.2.2 hr, h.1⟩, fun _ => h.2.1⟩
  · intro cmd topo opts env hs ht
    obtain ⟨so, co, nso, rto⟩ := env
    cases so <;> cases co <;> cases nso <;> cases rto <;>
      simp [DropIndexes, dispatchTail, hs, ht]

/-- Witness for C10: the four dispatches with no session on a
sessions-capable topology run the round trip on an implicit session and
end it. -/
theorem C10_witness :
    (Read { session := Option.none, readPref := Option.none } topoEx
      denvEx).roundTripSession = some .implicitK ∧
    (Write { session := Option.none, writeConcern := Option.none } topoEx
      denvEx).implicitEnded = true ∧
    (CountDocuments { session := Option.none, readPref := Option.none } topoEx {}
      { toDispatchEnv := denvEx, wireVersionMax := 7 }).roundTripSession =
      some .implicitK ∧
    (DropIndexes { session := Option.none, readPref := Option.none } topoEx {}
      denvEx).implicitEnded = true := by
  refine ⟨?_, ?_, ?_, ?_⟩
  · exact ((C10_implicit_sessions.1
      { session := Option.none, readPref := Option.none } topoEx denvEx rfl rfl).1
      (by decide)).1
  · exact (C10_implicit_sessions.2.1
      { session := Option.none, writeConcern := Option.none } topoEx denvEx rfl rfl
      rfl).2 (by decide)
  · exact ((C10_implicit_sessions.2.2.1
      { session := Option.none, readPref := Option.none } topoEx {}
      { toDispatchEnv := denvEx, wireVersionMax := 7 } rfl rfl).1 (by decide)).1
  · exact (C10_implicit_sessions.2.2.2
      { session := Option.none, readPref := Option.none } topoEx {} denvEx rfl
      rfl).2 (by decide)

end MongoDriver
